import Mathlib

/-!
Shallow embedding of the `video-downloader-cli` repository
(`src/app.py`, interactive entry point, and `src/video_downloader.py`,
flag-parsing entry point).

Both programs build a token list `cmd` for the external `yt-dlp`
executable by successive `cmd.extend`/`cmd.append` calls and then spawn
it with `subprocess.run(cmd, check=True)`.  The filesystem is modelled
as a predicate `fs : String → Bool` (`Path(p).exists()`), and the
external process as an oracle `run : List String → Nat` giving the exit
status of a spawned command.
-/

namespace VDL

/-- Python truthiness of an `Optional[str]` value: `None` and the empty
string are falsy. -/
def strTruthy : Option String → Bool
  | none => false
  | some s => !(s == "")

namespace App

/-- `InteractiveVideoDownloader.find_cookies_file`: the candidate cookie
filenames, in source order (app.py lines 35-39). -/
def cookie_files : List String :=
  ["www.youtube.com_cookies.txt", "youtube.com_cookies.txt", "cookies.txt"]

/-- `InteractiveVideoDownloader.find_cookies_file` (app.py lines 33-43):
return the first candidate that exists, else `None`. -/
def find_cookies_file (fs : String → Bool) : Option String :=
  cookie_files.find? fs

/-- The object state of `InteractiveVideoDownloader`: the only field the
class ever stores is `self.cookies_path` (app.py line 20). -/
structure IState where
  cookies_path : Option String
  deriving DecidableEq, Repr

/-- `InteractiveVideoDownloader.__init__` (app.py lines 18-20): discover
the cookie file once at construction. -/
def IState.init (fs : String → Bool) : IState :=
  ⟨find_cookies_file fs⟩

/-- The arguments of `InteractiveVideoDownloader.download`
(app.py lines 128-137).  `format_choice` is the answer the user gives to
the inline format prompt on the `custom` branch (app.py lines 153-157). -/
structure IArgs where
  urls : List String
  download_type : String
  output_template : String
  extra_options : Option (List String)
  subtitle_langs : String
  use_cookies : Bool
  browser_cookies : Option String
  format_choice : String
  deriving Repr

/-- Authentication block of `InteractiveVideoDownloader.download`
(app.py lines 141-145): `if use_cookies and self.cookies_path: ... elif
browser_cookies: ...`. -/
def authFlagsI (cookies_path : Option String) (use_cookies : Bool)
    (browser_cookies : Option String) : List String :=
  if use_cookies && strTruthy cookies_path then
    ["--cookies", cookies_path.getD ""]
  else if strTruthy browser_cookies then
    ["--cookies-from-browser", browser_cookies.getD ""]
  else []

/-- Format-selection block of `InteractiveVideoDownloader.download`
(app.py lines 147-158). -/
def fmtFlagsI (download_type : String) (format_choice : String) : List String :=
  if download_type == "video" then
    ["-f", "bestvideo[ext=mp4]+bestaudio[ext=m4a]/best[ext=mp4]"]
  else if download_type == "audio" then
    ["--extract-audio", "--audio-format", "mp3"]
  else if download_type == "custom" then
    ["-f", format_choice]
  else []

/-- Output-template block (app.py lines 160-162): `if output_template:`
(a plain `str`, falsy iff empty). -/
def outFlagsI (output_template : String) : List String :=
  if output_template == "" then [] else ["-o", output_template]

/-- Extra-options block of `InteractiveVideoDownloader.download`
(app.py lines 164-175).  The whole block is guarded by
`if extra_options:`, so `None` and the empty list skip every inner
check, including the `--no-playlist` default. -/
def extraFlagsI (extra_options : Option (List String))
    (subtitle_langs : String) : List String :=
  match extra_options with
  | none => []
  | some opts =>
    if opts.isEmpty then []
    else
      (if opts.contains "subtitles" then
        ["--write-subs", "--sub-langs", subtitle_langs] else [])
      ++ (if !(opts.contains "playlist") then ["--no-playlist"] else [])
      ++ (if opts.contains "metadata" then ["--add-metadata"] else [])
      ++ (if opts.contains "thumbnail" then ["--embed-thumbnail"] else [])
      ++ (if opts.contains "sponsorblock" then ["--sponsorblock-remove"] else [])

/-- The command list assembled by `InteractiveVideoDownloader.download`
(app.py lines 139-177): `["yt-dlp"]` followed by the auth, format,
output and extra-option blocks, then the urls. -/
def downloadCmdI (st : IState) (a : IArgs) : List String :=
  ["yt-dlp"]
    ++ authFlagsI st.cookies_path a.use_cookies a.browser_cookies
    ++ fmtFlagsI a.download_type a.format_choice
    ++ outFlagsI a.output_template
    ++ extraFlagsI a.extra_options a.subtitle_langs
    ++ a.urls

/-- `InteractiveVideoDownloader.download` as a state transformer: it
builds the command and never assigns to `self`, so the object state is
returned unchanged (app.py lines 128-185). -/
def download (st : IState) (a : IArgs) : List String × IState :=
  (downloadCmdI st a, st)

/-- `InteractiveVideoDownloader.get_available_formats`
(app.py lines 116-124): builds `["yt-dlp", "-F", url]` plus an optional
cookies flag; never assigns to `self`. -/
def get_available_formats (st : IState) (url : String) (use_cookies : Bool) :
    List String × IState :=
  (["yt-dlp", "-F", url]
    ++ (if use_cookies && strTruthy st.cookies_path then
          ["--cookies", st.cookies_path.getD ""] else []),
   st)

/-- The `try: subprocess.run(cmd, check=True) except CalledProcessError:
sys.exit(1)` tail of `InteractiveVideoDownloader.download`
(app.py lines 180-185): `none` means the method returns normally,
`some c` means the program exits with status `c`. -/
def downloadExitI (run : List String → Nat) (cmd : List String) : Option Nat :=
  if run cmd = 0 then none else some 1

end App

namespace VD

/-- The keyword arguments of `VideoDownloader.download`
(video_downloader.py lines 22-36). -/
structure Args where
  urls : List String
  format : Option String
  audio_only : Bool
  output_template : Option String
  subtitles : Bool
  subtitles_lang : String
  playlist : Bool
  metadata : Bool
  thumbnail : Bool
  sponsorblock : Bool
  cookies : Option String
  browser : Option String
  deriving Repr

/-- Cookie-handling block of `VideoDownloader.download`
(video_downloader.py lines 40-47): a supplied cookies path wins the
`if`, and only when the file exists is the flag emitted; the `--browser`
branch is an `elif`, so a cookies path that is missing still shadows it. -/
def cookieFlags (fs : String → Bool) (cookies browser : Option String) :
    List String :=
  if strTruthy cookies then
    if fs (cookies.getD "") then ["--cookies", cookies.getD ""] else []
  else if strTruthy browser then
    ["--cookies-from-browser", browser.getD ""]
  else []

/-- Whether the `Warning: Cookies file ... not found` message is printed
(video_downloader.py line 45). -/
def cookieWarn (fs : String → Bool) (cookies : Option String) : Bool :=
  strTruthy cookies && !(fs (cookies.getD ""))

/-- Format-selection block (video_downloader.py lines 49-53): an
explicit `format` wins; `audio_only` applies only when no format was
given. -/
def fmtFlagsV (format : Option String) (audio_only : Bool) : List String :=
  if strTruthy format then ["-f", format.getD ""]
  else if audio_only then ["--extract-audio", "--audio-format", "mp3"]
  else []

/-- Output-template block (video_downloader.py lines 55-57). -/
def outFlagsV (output_template : Option String) : List String :=
  if strTruthy output_template then ["-o", output_template.getD ""] else []

/-- Subtitles block (video_downloader.py lines 59-61). -/
def subFlags (subtitles : Bool) (subtitles_lang : String) : List String :=
  if subtitles then ["--write-subs", "--sub-langs", subtitles_lang] else []

/-- Playlist block (video_downloader.py lines 63-65): the flag-parsing
entry point appends `--no-playlist` unconditionally when `playlist` is
not set. -/
def playlistFlags (playlist : Bool) : List String :=
  if !playlist then ["--no-playlist"] else []

/-- Metadata block (video_downloader.py lines 68-69). -/
def metaFlags (metadata : Bool) : List String :=
  if metadata then ["--add-metadata"] else []

/-- Thumbnail block (video_downloader.py lines 70-71). -/
def thumbFlags (thumbnail : Bool) : List String :=
  if thumbnail then ["--embed-thumbnail"] else []

/-- SponsorBlock block (video_downloader.py lines 74-75). -/
def sponsorFlags (sponsorblock : Bool) : List String :=
  if sponsorblock then ["--sponsorblock-remove"] else []

/-- The command list assembled by `VideoDownloader.download`
(video_downloader.py lines 38-77). -/
def downloadCmd (fs : String → Bool) (a : Args) : List String :=
  ["yt-dlp"]
    ++ cookieFlags fs a.cookies a.browser
    ++ fmtFlagsV a.format a.audio_only
    ++ outFlagsV a.output_template
    ++ subFlags a.subtitles a.subtitles_lang
    ++ playlistFlags a.playlist
    ++ metaFlags a.metadata
    ++ thumbFlags a.thumbnail
    ++ sponsorFlags a.sponsorblock
    ++ a.urls

/-- The `try: subprocess.run(cmd, check=True) except CalledProcessError:
sys.exit(1)` tail of `VideoDownloader.download`
(video_downloader.py lines 79-83). -/
def downloadExitV (run : List String → Nat) (cmd : List String) : Option Nat :=
  if run cmd = 0 then none else some 1

/-- The version-check command spawned by
`VideoDownloader.check_ytdlp_installed` (video_downloader.py
lines 11-20) and `InteractiveVideoDownloader.check_ytdlp_installed`
(app.py lines 22-31). -/
def versionCmd : List String := ["yt-dlp", "--version"]

/-- `main` (video_downloader.py lines 96-188), as the sequence of
foreign-process spawns a run performs: if both `--cookies` and
`--browser` are given, `main` errors out (line 170-172) before
constructing `VideoDownloader`, so nothing is spawned; otherwise
`VideoDownloader()` spawns the version check, and only if that check
succeeds does `download` spawn the download command. -/
def main_spawns (fs : String → Bool) (run : List String → Nat) (a : Args) :
    List (List String) :=
  if strTruthy a.cookies && strTruthy a.browser then []
  else if run versionCmd ≠ 0 then [versionCmd]
  else [versionCmd, downloadCmd fs a]

/-- Whether `main` exits with the `Error: Please specify either
--cookies or --browser, not both` message (video_downloader.py
lines 169-172). -/
def main_cookie_conflict (a : Args) : Bool :=
  strTruthy a.cookies && strTruthy a.browser

end VD

/-! ### Membership characterisations of the command segments -/

namespace VD

theorem mem_cookieFlags_iff {fs : String → Bool} {c b : Option String} {x : String} :
    x ∈ cookieFlags fs c b ↔
      (strTruthy c = true ∧ fs (c.getD "") = true ∧ (x = "--cookies" ∨ x = c.getD "")) ∨
      (strTruthy c = false ∧ strTruthy b = true ∧
        (x = "--cookies-from-browser" ∨ x = b.getD "")) := by
  unfold cookieFlags
  rcases hc : strTruthy c <;> rcases hb : strTruthy b <;>
    rcases he : fs (c.getD "") <;> simp [hc, hb, he]

theorem mem_fmtFlagsV_iff {f : Option String} {ao : Bool} {x : String} :
    x ∈ fmtFlagsV f ao ↔
      (strTruthy f = true ∧ (x = "-f" ∨ x = f.getD "")) ∨
      (strTruthy f = false ∧ ao = true ∧
        (x = "--extract-audio" ∨ x = "--audio-format" ∨ x = "mp3")) := by
  unfold fmtFlagsV
  rcases hf : strTruthy f <;> rcases ha : ao <;> simp [hf, ha]

theorem mem_outFlagsV_iff {t : Option String} {x : String} :
    x ∈ outFlagsV t ↔ strTruthy t = true ∧ (x = "-o" ∨ x = t.getD "") := by
  unfold outFlagsV
  rcases ht : strTruthy t <;> simp [ht]

theorem mem_subFlags_iff {s : Bool} {l x : String} :
    x ∈ subFlags s l ↔
      s = true ∧ (x = "--write-subs" ∨ x = "--sub-langs" ∨ x = l) := by
  unfold subFlags
  rcases hs : s <;> simp [hs]

theorem mem_playlistFlags_iff {p : Bool} {x : String} :
    x ∈ playlistFlags p ↔ p = false ∧ x = "--no-playlist" := by
  unfold playlistFlags
  rcases hp : p <;> simp [hp]

theorem mem_metaFlags_iff {m : Bool} {x : String} :
    x ∈ metaFlags m ↔ m = true ∧ x = "--add-metadata" := by
  unfold metaFlags
  rcases hm : m <;> simp [hm]

theorem mem_thumbFlags_iff {t : Bool} {x : String} :
    x ∈ thumbFlags t ↔ t = true ∧ x = "--embed-thumbnail" := by
  unfold thumbFlags
  rcases ht : t <;> simp [ht]

theorem mem_sponsorFlags_iff {s : Bool} {x : String} :
    x ∈ sponsorFlags s ↔ s = true ∧ x = "--sponsorblock-remove" := by
  unfold sponsorFlags
  rcases hs : s <;> simp [hs]

theorem mem_downloadCmd_iff {fs : String → Bool} {a : Args} {x : String} :
    x ∈ downloadCmd fs a ↔
      x = "yt-dlp" ∨ x ∈ cookieFlags fs a.cookies a.browser ∨
      x ∈ fmtFlagsV a.format a.audio_only ∨ x ∈ outFlagsV a.output_template ∨
      x ∈ subFlags a.subtitles a.subtitles_lang ∨ x ∈ playlistFlags a.playlist ∨
      x ∈ metaFlags a.metadata ∨ x ∈ thumbFlags a.thumbnail ∨
      x ∈ sponsorFlags a.sponsorblock ∨ x ∈ a.urls := by
  simp [downloadCmd]

end VD

namespace App

theorem mem_authFlagsI_iff {cp : Option String} {uc : Bool} {bc : Option String}
    {x : String} :
    x ∈ authFlagsI cp uc bc ↔
      ((uc && strTruthy cp) = true ∧ (x = "--cookies" ∨ x = cp.getD "")) ∨
      ((uc && strTruthy cp) = false ∧ strTruthy bc = true ∧
        (x = "--cookies-from-browser" ∨ x = bc.getD "")) := by
  unfold authFlagsI
  rcases hc : uc && strTruthy cp <;> rcases hb : strTruthy bc <;> simp [hc, hb]

theorem mem_fmtFlagsI_iff {dt fc x : String} :
    x ∈ fmtFlagsI dt fc ↔
      (dt = "video" ∧
        (x = "-f" ∨ x = "bestvideo[ext=mp4]+bestaudio[ext=m4a]/best[ext=mp4]")) ∨
      (dt ≠ "video" ∧ dt = "audio" ∧
        (x = "--extract-audio" ∨ x = "--audio-format" ∨ x = "mp3")) ∨
      (dt ≠ "video" ∧ dt ≠ "audio" ∧ dt = "custom" ∧ (x = "-f" ∨ x = fc)) := by
  unfold fmtFlagsI
  by_cases h1 : dt = "video" <;> by_cases h2 : dt = "audio" <;>
    by_cases h3 : dt = "custom" <;> simp_all

theorem mem_outFlagsI_iff {t x : String} :
    x ∈ outFlagsI t ↔ t ≠ "" ∧ (x = "-o" ∨ x = t) := by
  unfold outFlagsI
  by_cases ht : t = "" <;> simp [ht]

theorem mem_extraFlagsI_iff {eo : Option (List String)} {l x : String} :
    x ∈ extraFlagsI eo l ↔
      ∃ opts, eo = some opts ∧ opts.isEmpty = false ∧
        ((opts.contains "subtitles" = true ∧
            (x = "--write-subs" ∨ x = "--sub-langs" ∨ x = l)) ∨
         (opts.contains "playlist" = false ∧ x = "--no-playlist") ∨
         (opts.contains "metadata" = true ∧ x = "--add-metadata") ∨
         (opts.contains "thumbnail" = true ∧ x = "--embed-thumbnail") ∨
         (opts.contains "sponsorblock" = true ∧ x = "--sponsorblock-remove")) := by
  rcases eo with _ | opts
  · simp [extraFlagsI]
  · by_cases h0 : opts = []
    · subst h0; simp [extraFlagsI]
    · have h0' : opts.isEmpty = false := by simpa using h0
      by_cases h1 : opts.contains "subtitles" <;>
        by_cases h2 : opts.contains "playlist" <;>
        by_cases h3 : opts.contains "metadata" <;>
        by_cases h4 : opts.contains "thumbnail" <;>
        by_cases h5 : opts.contains "sponsorblock" <;>
        simp [extraFlagsI, h0', h0, h1, h2, h3, h4, h5]

theorem mem_downloadCmdI_iff {st : IState} {a : IArgs} {x : String} :
    x ∈ downloadCmdI st a ↔
      x = "yt-dlp" ∨
      x ∈ authFlagsI st.cookies_path a.use_cookies a.browser_cookies ∨
      x ∈ fmtFlagsI a.download_type a.format_choice ∨
      x ∈ outFlagsI a.output_template ∨
      x ∈ extraFlagsI a.extra_options a.subtitle_langs ∨ x ∈ a.urls := by
  simp [downloadCmdI]

end App

/-! ### Side conditions

The command builders splice free-form strings (urls, option values) into
the token list, so a statement that some flag token is absent needs the
side condition that none of those free-form strings happens to be that
very token. -/

/-- Token `t` does not occur among the free-form strings spliced into a
flag-parsing command (urls and option values); the subtitle-language
string is handled separately. -/
abbrev VD.FreshTok (a : VD.Args) (t : String) : Prop :=
  t ∉ a.urls ∧ t ≠ a.format.getD "" ∧ t ≠ a.output_template.getD "" ∧
    t ≠ a.cookies.getD "" ∧ t ≠ a.browser.getD ""

/-- Token `t` does not occur among the free-form strings spliced into an
interactive command (urls, output template, custom-format answer, cookie
path, browser name); the subtitle-language string is handled
separately. -/
abbrev App.FreshTokI (st : App.IState) (b : App.IArgs) (t : String) : Prop :=
  t ∉ b.urls ∧ t ≠ b.output_template ∧ t ≠ b.format_choice ∧
    t ≠ st.cookies_path.getD "" ∧ t ≠ b.browser_cookies.getD ""

/-- The literal flag tokens the flag-parsing command builder can emit. -/
def VD.flagTokens : List String :=
  ["yt-dlp", "--cookies", "--cookies-from-browser", "-f", "--extract-audio",
   "--audio-format", "mp3", "-o", "--write-subs", "--sub-langs",
   "--no-playlist", "--add-metadata", "--embed-thumbnail",
   "--sponsorblock-remove"]

/-- The literal flag tokens the interactive command builder can emit. -/
def App.flagTokensI : List String :=
  ["yt-dlp", "--cookies", "--cookies-from-browser", "-f",
   "bestvideo[ext=mp4]+bestaudio[ext=m4a]/best[ext=mp4]", "--extract-audio",
   "--audio-format", "mp3", "-o", "--write-subs", "--sub-langs",
   "--no-playlist", "--add-metadata", "--embed-thumbnail",
   "--sponsorblock-remove"]

/-! ### Claims -/

/-- C1, counterexample: the claim says the program's exit status equals
the external process's failure status.  With an external process exiting
with status 2, both download paths exit with status 1, not 2. -/
theorem C1_counterexample :
    (fun _ : List String => 2)
        (VD.downloadCmd (fun _ => false)
          ⟨["https://example.com/w"], none, false, none, false, "en",
            false, false, false, false, none, none⟩) = 2 ∧
    VD.downloadExitV (fun _ => 2)
        (VD.downloadCmd (fun _ => false)
          ⟨["https://example.com/w"], none, false, none, false, "en",
            false, false, false, false, none, none⟩) = some 1 ∧
    (some 1 : Option Nat) ≠ some 2 := by
  refine ⟨rfl, ?_, by decide⟩
  simp [VD.downloadExitV]

/-- C1 (amended): when the external downloader subprocess exits with a
nonzero status, both entry points terminate with exit status 1 (a fixed
failure status, not the subprocess's own status); when the subprocess
succeeds, neither exits with a failure status. -/
theorem C1_exit_propagation (run : List String → Nat) (cmd : List String) :
    (run cmd ≠ 0 →
      VD.downloadExitV run cmd = some 1 ∧ App.downloadExitI run cmd = some 1) ∧
    (run cmd = 0 →
      VD.downloadExitV run cmd = none ∧ App.downloadExitI run cmd = none) := by
  constructor <;> intro h <;> simp [VD.downloadExitV, App.downloadExitI, h]

/-- C1 witness: the amended theorem applied at a failing run (status 3)
and at a succeeding run (status 0). -/
theorem C1_exit_propagation_witness :
    VD.downloadExitV (fun _ => 3) ["yt-dlp", "u"] = some 1 ∧
    App.downloadExitI (fun _ => 0) ["yt-dlp", "u"] = none :=
  ⟨((C1_exit_propagation (fun _ => 3) ["yt-dlp", "u"]).1 (by decide)).1,
   ((C1_exit_propagation (fun _ => 0) ["yt-dlp", "u"]).2 (by decide)).2⟩

/-- C5: cookie-file discovery returns the first existing file among the
three candidate names, checked in exactly the source order, and `none`
when none of the three exists. -/
theorem C5_find_cookies_file_order (fs : String → Bool) :
    App.find_cookies_file fs =
      (if fs "www.youtube.com_cookies.txt" then some "www.youtube.com_cookies.txt"
       else if fs "youtube.com_cookies.txt" then some "youtube.com_cookies.txt"
       else if fs "cookies.txt" then some "cookies.txt"
       else none) := by
  rcases h1 : fs "www.youtube.com_cookies.txt" <;>
    rcases h2 : fs "youtube.com_cookies.txt" <;>
    rcases h3 : fs "cookies.txt" <;>
    simp [App.find_cookies_file, App.cookie_files, List.find?, h1, h2, h3]

/-- C6, counterexample: the claim says the external executable is
spawned exactly once per run.  A successful flag-parsing run spawns it
twice: once for the version check at construction and once for the
download. -/
theorem C6_counterexample :
    (VD.main_spawns (fun _ => false) (fun _ => 0)
        ⟨["https://example.com/w"], none, false, none, false, "en",
          false, false, false, false, none, none⟩).length = 2 ∧
    (VD.main_spawns (fun _ => false) (fun _ => 0)
        ⟨["https://example.com/w"], none, false, none, false, "en",
          false, false, false, false, none, none⟩).length ≠ 1 := by
  decide

/-- C6 (amended): a run of the flag-parsing entry point that passes the
cookie-option validation and whose version check succeeds performs
exactly two foreign-process invocations: the version check followed by
exactly one download invocation. -/
theorem C6_main_spawns (fs : String → Bool) (run : List String → Nat)
    (a : VD.Args) (hc : VD.main_cookie_conflict a = false)
    (hv : run VD.versionCmd = 0) :
    VD.main_spawns fs run a = [VD.versionCmd, VD.downloadCmd fs a] ∧
    (VD.main_spawns fs run a).length = 2 := by
  have h := hc
  unfold VD.main_cookie_conflict at h
  simp [VD.main_spawns, h, hv]

/-- C6 witness: the amended theorem applied to a concrete run. -/
theorem C6_main_spawns_witness :
    VD.main_spawns (fun _ => false) (fun _ => 0)
        ⟨["https://example.com/v"], none, false, none, false, "en",
          false, false, false, false, none, none⟩ =
      [VD.versionCmd,
       VD.downloadCmd (fun _ => false)
        ⟨["https://example.com/v"], none, false, none, false, "en",
          false, false, false, false, none, none⟩] ∧
    (VD.main_spawns (fun _ => false) (fun _ => 0)
        ⟨["https://example.com/v"], none, false, none, false, "en",
          false, false, false, false, none, none⟩).length = 2 :=
  C6_main_spawns (fun _ => false) (fun _ => 0) _ (by decide) rfl

/-- C7: the discovered cookie-file path is fixed at construction and no
operation modifies it: `download` and `get_available_formats` leave the
object state (hence `cookies_path`) unchanged, and the command list of
an invocation does not persist into the next one (a second call after a
first produces exactly the command a fresh call would). -/
theorem C7_state_frame (fs : String → Bool) (st : App.IState)
    (a b : App.IArgs) (u : String) (uc : Bool) :
    (App.IState.init fs).cookies_path = App.find_cookies_file fs ∧
    (App.download st a).2 = st ∧
    ((App.download st a).2).cookies_path = st.cookies_path ∧
    (App.get_available_formats st u uc).2 = st ∧
    (App.download ((App.download st a).2) b).1 = (App.download st b).1 :=
  ⟨rfl, rfl, rfl, rfl, rfl⟩

/-- C2, counterexample: the claim says that in the interactive entry
point, even with an empty set of selected extra options, the command
contains `--no-playlist` because playlist is not selected.  With
`extra_options = some []` the whole extra-options block is skipped, so
the flag is absent although playlist is not selected. -/
theorem C2_counterexample :
    "playlist" ∉ ([] : List String) ∧
    "--no-playlist" ∉
      (App.download ⟨none⟩
        ⟨["https://example.com/v"], "video", "%(title)s.%(ext)s", some [],
          "en", false, none, ""⟩).1 := by
  decide

/-- C2 (amended): in the flag-parsing entry point the command contains
`--no-playlist` iff the playlist option is not set.  In the interactive
entry point it contains `--no-playlist` iff the selected extra options
form a nonempty list that does not contain `playlist`; in particular
when the selected set is empty (or absent) the flag is not appended. -/
theorem C2_no_playlist (fs : String → Bool) (a : VD.Args)
    (st : App.IState) (b : App.IArgs)
    (h1 : VD.FreshTok a "--no-playlist")
    (h2 : ("--no-playlist" : String) ≠ a.subtitles_lang)
    (g1 : App.FreshTokI st b "--no-playlist")
    (g2 : ("--no-playlist" : String) ≠ b.subtitle_langs) :
    ("--no-playlist" ∈ VD.downloadCmd fs a ↔ a.playlist = false) ∧
    ("--no-playlist" ∈ App.downloadCmdI st b ↔
      ∃ opts, b.extra_options = some opts ∧ opts.isEmpty = false ∧
        opts.contains "playlist" = false) := by
  obtain ⟨u1, u2, u3, u4, u5⟩ := h1
  obtain ⟨v1, v2, v3, v4, v5⟩ := g1
  constructor
  · rw [VD.mem_downloadCmd_iff]
    simp [VD.mem_cookieFlags_iff, VD.mem_fmtFlagsV_iff, VD.mem_outFlagsV_iff,
      VD.mem_subFlags_iff, VD.mem_playlistFlags_iff, VD.mem_metaFlags_iff,
      VD.mem_thumbFlags_iff, VD.mem_sponsorFlags_iff,
      u1, u2, u3, u4, u5, h2]
  · rw [App.mem_downloadCmdI_iff]
    simp [App.mem_authFlagsI_iff, App.mem_fmtFlagsI_iff, App.mem_outFlagsI_iff,
      App.mem_extraFlagsI_iff, v1, v2, v3, v4, v5, g2]

/-- C2 witness: the amended theorem at a concrete option set. -/
theorem C2_no_playlist_witness :
    ("--no-playlist" ∈
        VD.downloadCmd (fun _ => false)
          ⟨["https://example.com/v"], none, false, none, false, "en",
            false, false, false, false, none, none⟩ ↔
      (false : Bool) = false) ∧
    ("--no-playlist" ∈
        App.downloadCmdI ⟨none⟩
          ⟨["https://example.com/v"], "video", "%(title)s.%(ext)s",
            some ["metadata"], "en", false, none, ""⟩ ↔
      ∃ opts, (some ["metadata"] : Option (List String)) = some opts ∧
        opts.isEmpty = false ∧ opts.contains "playlist" = false) :=
  C2_no_playlist (fun _ => false)
    ⟨["https://example.com/v"], none, false, none, false, "en",
      false, false, false, false, none, none⟩
    ⟨none⟩
    ⟨["https://example.com/v"], "video", "%(title)s.%(ext)s",
      some ["metadata"], "en", false, none, ""⟩
    (by decide) (by decide) (by decide) (by decide)

/-- C3: with the audio-only download type selected (and, in the
flag-parsing entry point, no explicit format), the format-selection
block is exactly `--extract-audio --audio-format mp3`, those three
tokens occur consecutively in the command, and `-f` does not occur, in
both entry points. -/
theorem C3_audio_only_flags (fs : String → Bool) (a : VD.Args)
    (st : App.IState) (b : App.IArgs)
    (ha1 : strTruthy a.format = false) (ha2 : a.audio_only = true)
    (h1 : VD.FreshTok a "-f") (h2 : ("-f" : String) ≠ a.subtitles_lang)
    (hb : b.download_type = "audio")
    (g1 : App.FreshTokI st b "-f") (g2 : ("-f" : String) ≠ b.subtitle_langs) :
    VD.fmtFlagsV a.format a.audio_only =
      ["--extract-audio", "--audio-format", "mp3"] ∧
    List.IsInfix ["--extract-audio", "--audio-format", "mp3"]
      (VD.downloadCmd fs a) ∧
    "-f" ∉ VD.downloadCmd fs a ∧
    App.fmtFlagsI b.download_type b.format_choice =
      ["--extract-audio", "--audio-format", "mp3"] ∧
    List.IsInfix ["--extract-audio", "--audio-format", "mp3"]
      (App.downloadCmdI st b) ∧
    "-f" ∉ App.downloadCmdI st b := by
  obtain ⟨u1, u2, u3, u4, u5⟩ := h1
  obtain ⟨v1, v2, v3, v4, v5⟩ := g1
  have hfV : VD.fmtFlagsV a.format a.audio_only =
      ["--extract-audio", "--audio-format", "mp3"] := by
    simp [VD.fmtFlagsV, ha1, ha2]
  have hfI : App.fmtFlagsI b.download_type b.format_choice =
      ["--extract-audio", "--audio-format", "mp3"] := by
    simp [App.fmtFlagsI, hb]
  refine ⟨hfV, ⟨["yt-dlp"] ++ VD.cookieFlags fs a.cookies a.browser,
      VD.outFlagsV a.output_template ++ VD.subFlags a.subtitles a.subtitles_lang
        ++ VD.playlistFlags a.playlist ++ VD.metaFlags a.metadata
        ++ VD.thumbFlags a.thumbnail ++ VD.sponsorFlags a.sponsorblock
        ++ a.urls, ?_⟩, ?_, hfI,
    ⟨["yt-dlp"] ++ App.authFlagsI st.cookies_path b.use_cookies b.browser_cookies,
      App.outFlagsI b.output_template
        ++ App.extraFlagsI b.extra_options b.subtitle_langs ++ b.urls, ?_⟩, ?_⟩
  · simp [VD.downloadCmd, hfV]
  · rw [VD.mem_downloadCmd_iff]
    simp [VD.mem_cookieFlags_iff, VD.mem_fmtFlagsV_iff, VD.mem_outFlagsV_iff,
      VD.mem_subFlags_iff, VD.mem_playlistFlags_iff, VD.mem_metaFlags_iff,
      VD.mem_thumbFlags_iff, VD.mem_sponsorFlags_iff,
      ha1, u1, u2, u3, u4, u5, h2]
  · simp [App.downloadCmdI, hfI]
  · rw [App.mem_downloadCmdI_iff]
    simp [App.mem_authFlagsI_iff, App.mem_fmtFlagsI_iff, App.mem_outFlagsI_iff,
      App.mem_extraFlagsI_iff, hb, v1, v2, v3, v4, v5, g2]

/-- C3 witness: the theorem at a concrete audio-only option set. -/
theorem C3_audio_only_flags_witness :
    VD.fmtFlagsV none true = ["--extract-audio", "--audio-format", "mp3"] ∧
    List.IsInfix ["--extract-audio", "--audio-format", "mp3"]
      (VD.downloadCmd (fun _ => false)
        ⟨["https://example.com/v"], none, true, none, false, "en",
          false, false, false, false, none, none⟩) ∧
    "-f" ∉ VD.downloadCmd (fun _ => false)
        ⟨["https://example.com/v"], none, true, none, false, "en",
          false, false, false, false, none, none⟩ ∧
    App.fmtFlagsI "audio" "bestvideo+bestaudio" =
      ["--extract-audio", "--audio-format", "mp3"] ∧
    List.IsInfix ["--extract-audio", "--audio-format", "mp3"]
      (App.downloadCmdI ⟨none⟩
        ⟨["https://example.com/v"], "audio", "%(title)s.%(ext)s", none, "en",
          false, none, "bestvideo+bestaudio"⟩) ∧
    "-f" ∉ App.downloadCmdI ⟨none⟩
        ⟨["https://example.com/v"], "audio", "%(title)s.%(ext)s", none, "en",
          false, none, "bestvideo+bestaudio"⟩ :=
  C3_audio_only_flags (fun _ => false)
    ⟨["https://example.com/v"], none, true, none, false, "en",
      false, false, false, false, none, none⟩
    ⟨none⟩
    ⟨["https://example.com/v"], "audio", "%(title)s.%(ext)s", none, "en",
      false, none, "bestvideo+bestaudio"⟩
    (by decide) (by decide) (by decide) (by decide) (by decide)
    (by decide) (by decide)

/-- C4: when the subtitles option is selected the command contains the
consecutive tokens `--write-subs --sub-langs L`; when it is not
selected, none of the three tokens appears.  Holds for both entry
points (in the interactive one, selection means the extra-options list
contains `subtitles`). -/
theorem C4_subtitle_flags (fs : String → Bool) (a : VD.Args)
    (st : App.IState) (b : App.IArgs)
    (h1 : VD.FreshTok a "--write-subs") (h2 : VD.FreshTok a "--sub-langs")
    (h3 : VD.FreshTok a a.subtitles_lang)
    (hL : a.subtitles_lang ∉ VD.flagTokens)
    (g1 : App.FreshTokI st b "--write-subs")
    (g2 : App.FreshTokI st b "--sub-langs")
    (g3 : App.FreshTokI st b b.subtitle_langs)
    (gL : b.subtitle_langs ∉ App.flagTokensI) :
    (a.subtitles = true →
      List.IsInfix ["--write-subs", "--sub-langs", a.subtitles_lang]
        (VD.downloadCmd fs a)) ∧
    (a.subtitles = false →
      "--write-subs" ∉ VD.downloadCmd fs a ∧
      "--sub-langs" ∉ VD.downloadCmd fs a ∧
      a.subtitles_lang ∉ VD.downloadCmd fs a) ∧
    (∀ opts, b.extra_options = some opts → opts.contains "subtitles" = true →
      List.IsInfix ["--write-subs", "--sub-langs", b.subtitle_langs]
        (App.downloadCmdI st b)) ∧
    ((∀ opts, b.extra_options = some opts →
        opts.contains "subtitles" = false) →
      "--write-subs" ∉ App.downloadCmdI st b ∧
      "--sub-langs" ∉ App.downloadCmdI st b ∧
      b.subtitle_langs ∉ App.downloadCmdI st b) := by
  obtain ⟨u1, u2, u3, u4, u5⟩ := h1
  obtain ⟨w1, w2, w3, w4, w5⟩ := h2
  obtain ⟨l1, l2, l3, l4, l5⟩ := h3
  obtain ⟨p1, p2, p3, p4, p5⟩ := g1
  obtain ⟨q1, q2, q3, q4, q5⟩ := g2
  obtain ⟨r1, r2, r3, r4, r5⟩ := g3
  simp only [VD.flagTokens, App.flagTokensI, List.mem_cons,
    List.mem_singleton, not_or] at hL gL
  refine ⟨?_, ?_, ?_, ?_⟩
  · intro hs
    refine ⟨["yt-dlp"] ++ VD.cookieFlags fs a.cookies a.browser
        ++ VD.fmtFlagsV a.format a.audio_only
        ++ VD.outFlagsV a.output_template,
      VD.playlistFlags a.playlist ++ VD.metaFlags a.metadata
        ++ VD.thumbFlags a.thumbnail ++ VD.sponsorFlags a.sponsorblock
        ++ a.urls, ?_⟩
    simp [VD.downloadCmd, VD.subFlags, hs]
  · intro hs
    refine ⟨?_, ?_, ?_⟩ <;> rw [VD.mem_downloadCmd_iff] <;>
      simp [VD.mem_cookieFlags_iff, VD.mem_fmtFlagsV_iff, VD.mem_outFlagsV_iff,
        VD.mem_subFlags_iff, VD.mem_playlistFlags_iff, VD.mem_metaFlags_iff,
        VD.mem_thumbFlags_iff, VD.mem_sponsorFlags_iff, hs,
        u1, u2, u3, u4, u5, w1, w2, w3, w4, w5, l1, l2, l3, l4, l5, hL]
  · intro opts heq hmem
    have hmem' : "subtitles" ∈ opts := by simpa using hmem
    have hne : opts.isEmpty = false := by
      cases opts with
      | nil => simp at hmem
      | cons y ys => simp
    refine ⟨["yt-dlp"]
        ++ App.authFlagsI st.cookies_path b.use_cookies b.browser_cookies
        ++ App.fmtFlagsI b.download_type b.format_choice
        ++ App.outFlagsI b.output_template,
      (if !(opts.contains "playlist") then ["--no-playlist"] else [])
        ++ (if opts.contains "metadata" then ["--add-metadata"] else [])
        ++ (if opts.contains "thumbnail" then ["--embed-thumbnail"] else [])
        ++ (if opts.contains "sponsorblock" then ["--sponsorblock-remove"]
            else [])
        ++ b.urls, ?_⟩
    simp [App.downloadCmdI, App.extraFlagsI, heq, hne, hmem, hmem']
  · intro hnone
    rcases heo : b.extra_options with _ | opts
    · refine ⟨?_, ?_, ?_⟩ <;> rw [App.mem_downloadCmdI_iff] <;>
        simp [App.mem_authFlagsI_iff, App.mem_fmtFlagsI_iff,
          App.mem_outFlagsI_iff, App.mem_extraFlagsI_iff, heo,
          p1, p2, p3, p4, p5, q1, q2, q3, q4, q5, r1, r2, r3, r4, r5, gL]
    · have hc := hnone opts heo
      have hc' : "subtitles" ∉ opts := by simpa using hc
      refine ⟨?_, ?_, ?_⟩ <;> rw [App.mem_downloadCmdI_iff] <;>
        simp [App.mem_authFlagsI_iff, App.mem_fmtFlagsI_iff,
          App.mem_outFlagsI_iff, App.mem_extraFlagsI_iff, heo, hc, hc',
          p1, p2, p3, p4, p5, q1, q2, q3, q4, q5, r1, r2, r3, r4, r5, gL]

/-- C4 witness: the theorem at a concrete option set (subtitles
selected in both entry points, language `en`). -/
theorem C4_subtitle_flags_witness :
    ((true : Bool) = true →
      List.IsInfix ["--write-subs", "--sub-langs", "en"]
        (VD.downloadCmd (fun _ => false)
          ⟨["https://example.com/v"], none, false, none, true, "en",
            false, false, false, false, none, none⟩)) ∧
    ((true : Bool) = false →
      "--write-subs" ∉ VD.downloadCmd (fun _ => false)
          ⟨["https://example.com/v"], none, false, none, true, "en",
            false, false, false, false, none, none⟩ ∧
      "--sub-langs" ∉ VD.downloadCmd (fun _ => false)
          ⟨["https://example.com/v"], none, false, none, true, "en",
            false, false, false, false, none, none⟩ ∧
      "en" ∉ VD.downloadCmd (fun _ => false)
          ⟨["https://example.com/v"], none, false, none, true, "en",
            false, false, false, false, none, none⟩) ∧
    (∀ opts, (some ["subtitles"] : Option (List String)) = some opts →
      opts.contains "subtitles" = true →
      List.IsInfix ["--write-subs", "--sub-langs", "en"]
        (App.downloadCmdI ⟨none⟩
          ⟨["https://example.com/v"], "video", "%(title)s.%(ext)s",
            some ["subtitles"], "en", false, none, ""⟩)) ∧
    ((∀ opts, (some ["subtitles"] : Option (List String)) = some opts →
        opts.contains "subtitles" = false) →
      "--write-subs" ∉ App.downloadCmdI ⟨none⟩
          ⟨["https://example.com/v"], "video", "%(title)s.%(ext)s",
            some ["subtitles"], "en", false, none, ""⟩ ∧
      "--sub-langs" ∉ App.downloadCmdI ⟨none⟩
          ⟨["https://example.com/v"], "video", "%(title)s.%(ext)s",
            some ["subtitles"], "en", false, none, ""⟩ ∧
      "en" ∉ App.downloadCmdI ⟨none⟩
          ⟨["https://example.com/v"], "video", "%(title)s.%(ext)s",
            some ["subtitles"], "en", false, none, ""⟩) :=
  C4_subtitle_flags (fun _ => false)
    ⟨["https://example.com/v"], none, false, none, true, "en",
      false, false, false, false, none, none⟩
    ⟨none⟩
    ⟨["https://example.com/v"], "video", "%(title)s.%(ext)s",
      some ["subtitles"], "en", false, none, ""⟩
    (by decide) (by decide) (by decide) (by decide) (by decide)
    (by decide) (by decide) (by decide)

/-- C8: no constructed command contains both cookie-source flags; in
the interactive entry point a usable cookies file takes precedence over
browser cookies; in the flag-parsing entry point supplying both
`--cookies` and `--browser` makes `main` exit before anything is
spawned or any download command is built. -/
theorem C8_cookie_source_exclusive (fs : String → Bool)
    (run : List String → Nat) (a : VD.Args) (st : App.IState) (b : App.IArgs)
    (h1 : VD.FreshTok a "--cookies")
    (h2 : VD.FreshTok a "--cookies-from-browser")
    (h3 : ("--cookies" : String) ≠ a.subtitles_lang)
    (h4 : ("--cookies-from-browser" : String) ≠ a.subtitles_lang)
    (g1 : App.FreshTokI st b "--cookies")
    (g2 : App.FreshTokI st b "--cookies-from-browser")
    (g3 : ("--cookies" : String) ≠ b.subtitle_langs)
    (g4 : ("--cookies-from-browser" : String) ≠ b.subtitle_langs) :
    ¬("--cookies" ∈ VD.downloadCmd fs a ∧
      "--cookies-from-browser" ∈ VD.downloadCmd fs a) ∧
    ¬("--cookies" ∈ App.downloadCmdI st b ∧
      "--cookies-from-browser" ∈ App.downloadCmdI st b) ∧
    ((b.use_cookies && strTruthy st.cookies_path) = true →
      "--cookies" ∈ App.downloadCmdI st b ∧
      "--cookies-from-browser" ∉ App.downloadCmdI st b) ∧
    (VD.main_cookie_conflict a = true → VD.main_spawns fs run a = []) := by
  obtain ⟨u1, u2, u3, u4, u5⟩ := h1
  obtain ⟨w1, w2, w3, w4, w5⟩ := h2
  obtain ⟨p1, p2, p3, p4, p5⟩ := g1
  obtain ⟨q1, q2, q3, q4, q5⟩ := g2
  refine ⟨?_, ?_, ?_, ?_⟩
  · rintro ⟨hA, hB⟩
    rw [VD.mem_downloadCmd_iff] at hA hB
    simp [VD.mem_cookieFlags_iff, VD.mem_fmtFlagsV_iff, VD.mem_outFlagsV_iff,
      VD.mem_subFlags_iff, VD.mem_playlistFlags_iff, VD.mem_metaFlags_iff,
      VD.mem_thumbFlags_iff, VD.mem_sponsorFlags_iff,
      u1, u2, u3, u4, u5, h3] at hA
    simp [VD.mem_cookieFlags_iff, VD.mem_fmtFlagsV_iff, VD.mem_outFlagsV_iff,
      VD.mem_subFlags_iff, VD.mem_playlistFlags_iff, VD.mem_metaFlags_iff,
      VD.mem_thumbFlags_iff, VD.mem_sponsorFlags_iff,
      w1, w2, w3, w4, w5, h4] at hB
    simp [hA.1] at hB
  · rintro ⟨hA, hB⟩
    rw [App.mem_downloadCmdI_iff] at hA hB
    simp [App.mem_authFlagsI_iff, App.mem_fmtFlagsI_iff, App.mem_outFlagsI_iff,
      App.mem_extraFlagsI_iff, p1, p2, p3, p4, p5, g3] at hA
    simp [App.mem_authFlagsI_iff, App.mem_fmtFlagsI_iff, App.mem_outFlagsI_iff,
      App.mem_extraFlagsI_iff, q1, q2, q3, q4, q5, g4] at hB
    simp [hA.1, hA.2] at hB
  · intro huc
    constructor
    · simp [App.downloadCmdI, App.authFlagsI, huc]
    · rw [App.mem_downloadCmdI_iff]
      simp [App.mem_authFlagsI_iff, App.mem_fmtFlagsI_iff,
        App.mem_outFlagsI_iff, App.mem_extraFlagsI_iff, huc,
        q1, q2, q3, q4, q5, g4]
  · intro hc
    unfold VD.main_cookie_conflict at hc
    simp [VD.main_spawns, hc]

/-- C8 witness: the theorem at concrete inputs where the interactive
entry point has both a usable cookies file and a browser selected. -/
theorem C8_cookie_source_exclusive_witness :
    ¬("--cookies" ∈ VD.downloadCmd (fun _ => true)
        ⟨["https://example.com/v"], none, false, none, false, "en",
          false, false, false, false, some "cookies.txt", none⟩ ∧
      "--cookies-from-browser" ∈ VD.downloadCmd (fun _ => true)
        ⟨["https://example.com/v"], none, false, none, false, "en",
          false, false, false, false, some "cookies.txt", none⟩) ∧
    ¬("--cookies" ∈ App.downloadCmdI ⟨some "cookies.txt"⟩
        ⟨["https://example.com/v"], "video", "%(title)s.%(ext)s", none,
          "en", true, some "chrome", ""⟩ ∧
      "--cookies-from-browser" ∈ App.downloadCmdI ⟨some "cookies.txt"⟩
        ⟨["https://example.com/v"], "video", "%(title)s.%(ext)s", none,
          "en", true, some "chrome", ""⟩) ∧
    ((true && strTruthy (some "cookies.txt")) = true →
      "--cookies" ∈ App.downloadCmdI ⟨some "cookies.txt"⟩
        ⟨["https://example.com/v"], "video", "%(title)s.%(ext)s", none,
          "en", true, some "chrome", ""⟩ ∧
      "--cookies-from-browser" ∉ App.downloadCmdI ⟨some "cookies.txt"⟩
        ⟨["https://example.com/v"], "video", "%(title)s.%(ext)s", none,
          "en", true, some "chrome", ""⟩) ∧
    (VD.main_cookie_conflict
        ⟨["https://example.com/v"], none, false, none, false, "en",
          false, false, false, false, some "cookies.txt", none⟩ = true →
      VD.main_spawns (fun _ => true) (fun _ => 0)
        ⟨["https://example.com/v"], none, false, none, false, "en",
          false, false, false, false, some "cookies.txt", none⟩ = []) :=
  C8_cookie_source_exclusive (fun _ => true) (fun _ => 0)
    ⟨["https://example.com/v"], none, false, none, false, "en",
      false, false, false, false, some "cookies.txt", none⟩
    ⟨some "cookies.txt"⟩
    ⟨["https://example.com/v"], "video", "%(title)s.%(ext)s", none,
      "en", true, some "chrome", ""⟩
    (by decide) (by decide) (by decide) (by decide) (by decide)
    (by decide) (by decide) (by decide)

/-- C9: in the flag-parsing entry point, a supplied cookies path whose
file does not exist produces the warning, yields an empty cookie block
(so `--cookies` is absent from the command), and the download still
proceeds: the subprocess is the only failure source, so a succeeding
subprocess means no failure exit. -/
theorem C9_missing_cookie_file (fs : String → Bool)
    (run : List String → Nat) (a : VD.Args)
    (hck : strTruthy a.cookies = true)
    (hmiss : fs (a.cookies.getD "") = false)
    (h1 : VD.FreshTok a "--cookies")
    (h2 : ("--cookies" : String) ≠ a.subtitles_lang) :
    VD.cookieWarn fs a.cookies = true ∧
    VD.cookieFlags fs a.cookies a.browser = [] ∧
    "--cookies" ∉ VD.downloadCmd fs a ∧
    (run (VD.downloadCmd fs a) = 0 →
      VD.downloadExitV run (VD.downloadCmd fs a) = none) := by
  obtain ⟨u1, u2, u3, u4, u5⟩ := h1
  refine ⟨?_, ?_, ?_, ?_⟩
  · simp [VD.cookieWarn, hck, hmiss]
  · simp [VD.cookieFlags, hck, hmiss]
  · rw [VD.mem_downloadCmd_iff]
    simp [VD.mem_cookieFlags_iff, VD.mem_fmtFlagsV_iff, VD.mem_outFlagsV_iff,
      VD.mem_subFlags_iff, VD.mem_playlistFlags_iff, VD.mem_metaFlags_iff,
      VD.mem_thumbFlags_iff, VD.mem_sponsorFlags_iff, hmiss,
      u1, u2, u3, u4, u5, h2]
  · intro h
    simp [VD.downloadExitV, h]

/-- C9 witness: the theorem at a concrete missing cookies file. -/
theorem C9_missing_cookie_file_witness :
    VD.cookieWarn (fun _ => false) (some "missing.txt") = true ∧
    VD.cookieFlags (fun _ => false) (some "missing.txt") none = [] ∧
    "--cookies" ∉ VD.downloadCmd (fun _ => false)
        ⟨["https://example.com/v"], none, false, none, false, "en",
          false, false, false, false, some "missing.txt", none⟩ ∧
    ((fun _ : List String => 0)
        (VD.downloadCmd (fun _ => false)
          ⟨["https://example.com/v"], none, false, none, false, "en",
            false, false, false, false, some "missing.txt", none⟩) = 0 →
      VD.downloadExitV (fun _ => 0)
        (VD.downloadCmd (fun _ => false)
          ⟨["https://example.com/v"], none, false, none, false, "en",
            false, false, false, false, some "missing.txt", none⟩) = none) :=
  C9_missing_cookie_file (fun _ => false) (fun _ => 0)
    ⟨["https://example.com/v"], none, false, none, false, "en",
      false, false, false, false, some "missing.txt", none⟩
    (by decide) (by decide) (by decide) (by decide)

/-- C10: in the flag-parsing entry point an explicit format selector
takes precedence over audio-only: the format block is exactly
`-f <format>`, those two tokens occur consecutively in the command, and
neither `--extract-audio` nor `--audio-format` occurs. -/
theorem C10_format_precedence (fs : String → Bool) (a : VD.Args)
    (hf : strTruthy a.format = true) (_ha : a.audio_only = true)
    (h1 : VD.FreshTok a "--extract-audio")
    (h2 : VD.FreshTok a "--audio-format")
    (h3 : ("--extract-audio" : String) ≠ a.subtitles_lang)
    (h4 : ("--audio-format" : String) ≠ a.subtitles_lang) :
    VD.fmtFlagsV a.format a.audio_only = ["-f", a.format.getD ""] ∧
    List.IsInfix ["-f", a.format.getD ""] (VD.downloadCmd fs a) ∧
    "--extract-audio" ∉ VD.downloadCmd fs a ∧
    "--audio-format" ∉ VD.downloadCmd fs a := by
  obtain ⟨u1, u2, u3, u4, u5⟩ := h1
  obtain ⟨w1, w2, w3, w4, w5⟩ := h2
  have hfV : VD.fmtFlagsV a.format a.audio_only = ["-f", a.format.getD ""] := by
    simp [VD.fmtFlagsV, hf]
  refine ⟨hfV, ⟨["yt-dlp"] ++ VD.cookieFlags fs a.cookies a.browser,
      VD.outFlagsV a.output_template
        ++ VD.subFlags a.subtitles a.subtitles_lang
        ++ VD.playlistFlags a.playlist ++ VD.metaFlags a.metadata
        ++ VD.thumbFlags a.thumbnail ++ VD.sponsorFlags a.sponsorblock
        ++ a.urls, ?_⟩, ?_, ?_⟩
  · simp [VD.downloadCmd, hfV]
  · rw [VD.mem_downloadCmd_iff]
    simp [VD.mem_cookieFlags_iff, VD.mem_fmtFlagsV_iff, VD.mem_outFlagsV_iff,
      VD.mem_subFlags_iff, VD.mem_playlistFlags_iff, VD.mem_metaFlags_iff,
      VD.mem_thumbFlags_iff, VD.mem_sponsorFlags_iff, hf,
      u1, u2, u3, u4, u5, h3]
  · rw [VD.mem_downloadCmd_iff]
    simp [VD.mem_cookieFlags_iff, VD.mem_fmtFlagsV_iff, VD.mem_outFlagsV_iff,
      VD.mem_subFlags_iff, VD.mem_playlistFlags_iff, VD.mem_metaFlags_iff,
      VD.mem_thumbFlags_iff, VD.mem_sponsorFlags_iff, hf,
      w1, w2, w3, w4, w5, h4]

/-- C10 witness: the theorem at a concrete invocation supplying both a
format selector and audio-only. -/
theorem C10_format_precedence_witness :
    VD.fmtFlagsV (some "bestvideo+bestaudio") true =
      ["-f", (some "bestvideo+bestaudio" : Option String).getD ""] ∧
    List.IsInfix ["-f", (some "bestvideo+bestaudio" : Option String).getD ""]
      (VD.downloadCmd (fun _ => false)
        ⟨["https://example.com/v"], some "bestvideo+bestaudio", true, none,
          false, "en", false, false, false, false, none, none⟩) ∧
    "--extract-audio" ∉ VD.downloadCmd (fun _ => false)
        ⟨["https://example.com/v"], some "bestvideo+bestaudio", true, none,
          false, "en", false, false, false, false, none, none⟩ ∧
    "--audio-format" ∉ VD.downloadCmd (fun _ => false)
        ⟨["https://example.com/v"], some "bestvideo+bestaudio", true, none,
          false, "en", false, false, false, false, none, none⟩ :=
  C10_format_precedence (fun _ => false)
    ⟨["https://example.com/v"], some "bestvideo+bestaudio", true, none,
      false, "en", false, false, false, false, none, none⟩
    (by decide) (by decide) (by decide) (by decide) (by decide) (by decide)

end VDL
